import Mathlib

/-
  Verification of the lockbox-backend services against their specification.

  The Rust handlers of the box service (src/box-service/src/handlers/box_handlers.rs),
  the reminder worker (src/reminder-service/src/main.rs) and the invitation
  redemption operation are shallowly embedded as pure Lean functions over an
  explicit store state.  Stateful handlers take the stored `BoxRecord` as input
  and return the written record (together with the HTTP response body) inside
  `Except AppError`; an `error` result corresponds to a handler run that performed
  no store write.  Timestamps produced by `now_str()` are threaded in as explicit
  string parameters, one per call site, in call order.  The store-level `version`
  increment is not modelled: no verified property mentions `version`.
-/

/-- Error kinds of the services (spec section 7); each carries its message. -/
inductive AppError where
  | badRequest (msg : String)
  | unauthorized (msg : String)
  | forbidden (msg : String)
  | notFound (msg : String)
  | gone (msg : String)
  | internal (msg : String)
deriving DecidableEq, Repr

/-- A document of a box; the server treats its contents as opaque metadata. -/
structure Document where
  id : String
  metadata : String
deriving DecidableEq, Repr

/-- A guardian embedded in a box record (shared models crate). -/
structure Guardian where
  id : String
  name : String
  status : String
  lead_guardian : Bool
  added_at : String
  invitation_id : String
  encrypted_shard : Option String
  shard_hash : Option String
  shard_fetched_at : Option String
  shard_accepted_at : Option String
  lock_data_received_at : Option String
deriving DecidableEq, Repr

/-- The durable box record (shared models crate). -/
structure BoxRecord where
  id : String
  name : String
  description : String
  is_locked : Bool
  locked_at : Option String
  created_at : String
  updated_at : String
  owner_id : String
  owner_name : Option String
  documents : List Document
  guardians : List Guardian
  unlock_instructions : Option String
  version : Nat
  shard_threshold : Option Nat
  shards_fetched : Option Nat
  total_shards : Option Nat
  shards_deleted_at : Option String
deriving DecidableEq, Repr

/-- One entry of the lock request: a shard for one guardian. -/
structure ShardInput where
  guardian_id : String
  shard : String
  shard_hash : String
deriving DecidableEq, Repr

/-- Body of POST /boxes/owned/:id/lock. -/
structure LockBoxRequest where
  shards : List ShardInput
  shard_threshold : Nat
deriving DecidableEq, Repr

/-- Explicit null-clear versus provided value, for `unlock_instructions`. -/
inductive OptionalField where
  | value (val : String)
  | null
deriving DecidableEq, Repr

/-- Body of PATCH /boxes/owned/:id. -/
structure UpdateBoxRequest where
  name : Option String
  description : Option String
  unlock_instructions : Option OptionalField
  is_locked : Option Bool
deriving DecidableEq, Repr

/-- Reminder interval constant (hours) for the first reminder. -/
def REMINDER_1_HOURS : Int := 24

/-- Reminder interval constant (hours) for the second reminder. -/
def REMINDER_2_HOURS : Int := 72

/-- Reminder interval constant (hours) for the third reminder. -/
def REMINDER_3_HOURS : Int := 168

/-- Grace period (hours) before the first reminder. -/
def GRACE_PERIOD_HOURS : Int := 1

/-- determine_reminder_number from src/reminder-service/src/main.rs: maps hours
since the shard was sent to the reminder number to emit (0 = none). -/
def determine_reminder_number (hours_since_shard : Int) : Nat :=
  if hours_since_shard < GRACE_PERIOD_HOURS then 0
  else if REMINDER_1_HOURS ≤ hours_since_shard ∧ hours_since_shard < REMINDER_1_HOURS + 6 then 1
  else if REMINDER_2_HOURS ≤ hours_since_shard ∧ hours_since_shard < REMINDER_2_HOURS + 6 then 2
  else if REMINDER_3_HOURS ≤ hours_since_shard ∧ hours_since_shard < REMINDER_3_HOURS + 6 then 3
  else 0

/-- Index-and-element of the first guardian satisfying `p`; this packages the
Rust pattern `guardians.iter().position(p)` followed by indexing. -/
def find_indexed (p : Guardian → Bool) (gs : List Guardian) : Option (Nat × Guardian) :=
  match gs.findIdx? p with
  | none => none
  | some i => (gs[i]?).map (fun g => (i, g))

/-- The first guardian whose `id` equals the caller, with its index. -/
def find_guardian (gs : List Guardian) (user_id : String) : Option (Nat × Guardian) :=
  find_indexed (fun g => g.id == user_id) gs

/-- Response body of GET /boxes/guardian/:id/shard. -/
structure FetchShardResponse where
  encryptedShard : String
  shardHash : Option String
  shardFetchedAt : Option String
  shardThreshold : Nat
  totalShards : Nat
deriving DecidableEq, Repr

/-- fetch_guardian_shard from box_handlers.rs.  The returned `BoxRecord` is the
store state after the handler; the handler contains no `update_box` call, so the
input record is returned unchanged on success, and an `error` result likewise
performs no write. -/
def fetch_guardian_shard (box_rec : BoxRecord) (user_id : String) :
    Except AppError (BoxRecord × FetchShardResponse) :=
  if box_rec.is_locked = false then
    .error (.badRequest "Shard fetch is only available for locked boxes.")
  else
    match find_guardian box_rec.guardians user_id with
    | none => .error (.unauthorized "You are not a guardian for this box.")
    | some (_, guardian) =>
      let total_shards := box_rec.guardians.length
      let shard_threshold := box_rec.shard_threshold.getD total_shards
      if guardian.encrypted_shard.isNone then
        .error (.badRequest "Shard already fetched and removed from server storage.")
      else
        match guardian.encrypted_shard with
        | some shard =>
          .ok (box_rec,
            { encryptedShard := shard,
              shardHash := guardian.shard_hash,
              shardFetchedAt := guardian.shard_fetched_at,
              shardThreshold := shard_threshold,
              totalShards := total_shards })
        | none => .error (.notFound "Shard not available for this guardian.")

/-- Response body of PATCH /boxes/guardian/:id/shard/ack.  On the success path the
Rust handler serialises the fresh timestamp string and on the idempotent path the
stored `Option`; both serialise to the same JSON shape, modelled as `Option`. -/
structure AckShardResponse where
  shardFetchedAt : Option String
  totalShards : Nat
  shardsFetched : Nat
deriving DecidableEq, Repr

/-- acknowledge_guardian_shard from box_handlers.rs.  `now` is the `now_str()`
value stored into `shard_fetched_at`, `now2` the second `now_str()` call used for
`shards_deleted_at`.  The returned record is the store state after the handler
(unchanged on the idempotent early return, which performs no write). -/
def acknowledge_guardian_shard (box_rec : BoxRecord) (user_id now now2 : String) :
    Except AppError (BoxRecord × AckShardResponse) :=
  if box_rec.is_locked = false then
    .error (.badRequest "Shard acknowledgement is only available for locked boxes.")
  else
    match find_guardian box_rec.guardians user_id with
    | none => .error (.unauthorized "You are not a guardian for this box.")
    | some (guardian_index, guardian) =>
      let total_shards := box_rec.guardians.length
      if guardian.shard_fetched_at.isSome && guardian.encrypted_shard.isNone then
        .ok (box_rec,
          { shardFetchedAt := guardian.shard_fetched_at,
            totalShards := total_shards,
            shardsFetched := box_rec.shards_fetched.getD 0 })
      else if guardian.encrypted_shard.isNone then
        .error (.badRequest "Shard not available to acknowledge.")
      else
        let guardians' := box_rec.guardians.set guardian_index
          { guardian with shard_fetched_at := some now, encrypted_shard := none }
        let fetched_count := guardians'.countP (fun g => g.shard_fetched_at.isSome)
        let box' : BoxRecord :=
          { box_rec with
              guardians := guardians',
              shards_fetched := some fetched_count,
              total_shards := some total_shards,
              shards_deleted_at :=
                if fetched_count = total_shards then some now2 else box_rec.shards_deleted_at }
        .ok (box',
          { shardFetchedAt := some now,
            totalShards := total_shards,
            shardsFetched := fetched_count })

/-- Response body of POST /boxes/guardian/:id/shard/accept. -/
structure AcceptShardResponse where
  message : String
  shardAcceptedAt : Option String
  boxId : String
  boxName : String
deriving DecidableEq, Repr

/-- accept_guardian_shard from box_handlers.rs.  `now` is the timestamp stored
into `shard_accepted_at`, `now2` the second `now_str()` used for `updated_at`. -/
def accept_guardian_shard (box_rec : BoxRecord) (user_id now now2 : String) :
    Except AppError (BoxRecord × AcceptShardResponse) :=
  if box_rec.is_locked = false then
    .error (.badRequest "Shard acceptance is only available for locked boxes.")
  else
    match find_guardian box_rec.guardians user_id with
    | none => .error (.unauthorized "You are not a guardian for this box.")
    | some (guardian_index, guardian) =>
      if guardian.shard_accepted_at.isSome then
        .ok (box_rec,
          { message := "Shard already accepted",
            shardAcceptedAt := guardian.shard_accepted_at,
            boxId := box_rec.id,
            boxName := box_rec.name })
      else
        let box' : BoxRecord :=
          { box_rec with
              guardians := box_rec.guardians.set guardian_index
                { guardian with shard_accepted_at := some now },
              updated_at := now2 }
        .ok (box',
          { message := "Shard accepted successfully",
            shardAcceptedAt := some now,
            boxId := box_rec.id,
            boxName := box_rec.name })

/-- The `if let Some(name)` step of update_box. -/
def apply_name (payload : UpdateBoxRequest) (b : BoxRecord) : BoxRecord :=
  match payload.name with
  | some n => { b with name := n }
  | none => b

/-- The `if let Some(description)` step of update_box. -/
def apply_description (payload : UpdateBoxRequest) (b : BoxRecord) : BoxRecord :=
  match payload.description with
  | some d => { b with description := d }
  | none => b

/-- The `unlock_instructions` step of update_box, distinguishing an explicit
null-clear from an absent field. -/
def apply_unlock_instructions (payload : UpdateBoxRequest) (b : BoxRecord) : BoxRecord :=
  match payload.unlock_instructions with
  | some (.value v) => { b with unlock_instructions := some v }
  | some .null => { b with unlock_instructions := none }
  | none => b

/-- update_box from box_handlers.rs (PATCH /boxes/owned/:id). -/
def update_box (box0 : BoxRecord) (user_id : String) (payload : UpdateBoxRequest)
    (now : String) : Except AppError BoxRecord :=
  if box0.owner_id ≠ user_id then
    .error (.unauthorized "You don't have permission to update this box")
  else
    let has_other_updates := payload.name.isSome || payload.description.isSome
      || payload.unlock_instructions.isSome
    if box0.is_locked && has_other_updates then
      .error (.badRequest "Cannot modify a locked box. Locked boxes are immutable.")
    else
      let box3 := apply_unlock_instructions payload
        (apply_description payload (apply_name payload box0))
      match payload.is_locked with
      | some is_locked =>
        if box3.is_locked && !is_locked then
          .error (.badRequest "Cannot unlock a locked box. Locked boxes are immutable.")
        else
          let box4 := if is_locked && !box3.is_locked
            then { box3 with locked_at := some now } else box3
          .ok { box4 with is_locked := is_locked }
      | none => .ok box3

/-- The per-guardian shard-assignment loop of lock_box: each guardian receives
the first shard of the payload whose `guardian_id` matches; the first guardian
without a matching shard aborts with `BadRequest` naming it. -/
def assign_shards (shards : List ShardInput) : List Guardian → Except AppError (List Guardian)
  | [] => .ok []
  | guardian :: rest =>
    match shards.find? (fun s => s.guardian_id == guardian.id) with
    | some shard =>
      (assign_shards shards rest).map
        (fun rest' =>
          { guardian with
              encrypted_shard := some shard.shard,
              shard_hash := some shard.shard_hash,
              shard_fetched_at := none } :: rest')
    | none => .error (.badRequest ("Missing shard for guardian " ++ guardian.id))

/-- The guardian produced by the shard-assignment loop for `g`, when a matching
shard exists (identity otherwise; that case aborts the loop instead). -/
def assign_one (shards : List ShardInput) (g : Guardian) : Guardian :=
  match shards.find? (fun s => s.guardian_id == g.id) with
  | some shard =>
    { g with
        encrypted_shard := some shard.shard,
        shard_hash := some shard.shard_hash,
        shard_fetched_at := none }
  | none => g

/-- lock_box from box_handlers.rs (POST /boxes/owned/:id/lock).  The SNS publish
that follows the store write is fire-and-forget and does not affect the stored
record or the response, so it is not part of the state function. -/
def lock_box (box_rec : BoxRecord) (user_id : String) (payload : LockBoxRequest)
    (now : String) : Except AppError BoxRecord :=
  if box_rec.owner_id ≠ user_id then
    .error (.unauthorized "You don't have permission to lock this box")
  else if box_rec.is_locked then
    .error (.badRequest "Cannot lock an already locked box.")
  else if payload.shards.length ≠ box_rec.guardians.length then
    .error (.badRequest "Shard count must match the number of guardians.")
  else if payload.shard_threshold < 1 ∨ payload.shard_threshold > payload.shards.length then
    .error (.badRequest "Shard threshold must be between 1 and the number of guardians.")
  else
    (assign_shards payload.shards box_rec.guardians).map
      (fun guardians' =>
        { box_rec with
            guardians := guardians',
            is_locked := true,
            locked_at := some now,
            updated_at := now,
            shard_threshold := some payload.shard_threshold,
            total_shards := some payload.shards.length,
            shards_fetched := some 0,
            shards_deleted_at := none })

/-- delete_guardian_from_box from box_handlers.rs: removes the first guardian
whose `id` or `invitation_id` equals the supplied identifier (a single pass with
`||`), returning the updated box and the removed guardian. -/
def delete_guardian_from_box (box_rec : BoxRecord) (owner_id guardian_id : String) :
    Except AppError (BoxRecord × Guardian) :=
  if box_rec.owner_id ≠ owner_id then
    .error (.unauthorized "You don't have permission to delete guardians from this box")
  else if box_rec.is_locked then
    .error (.badRequest "Cannot delete guardians from a locked box. Locked boxes are immutable.")
  else
    match find_indexed (fun g => g.id == guardian_id || g.invitation_id == guardian_id)
        box_rec.guardians with
    | some (index, removed) =>
      .ok ({ box_rec with guardians := box_rec.guardians.eraseIdx index }, removed)
    | none =>
      .error (.notFound ("Guardian with ID or invitation_id " ++ guardian_id
        ++ " not found in box " ++ box_rec.id))

/-- Invariant P1 of the spec: in a locked box, a guardian's shard ciphertext is
absent exactly when its fetch timestamp is present. -/
def shardInvariant (box_rec : BoxRecord) : Prop :=
  box_rec.is_locked = true →
    ∀ g ∈ box_rec.guardians, (g.encrypted_shard = none ↔ g.shard_fetched_at ≠ none)

/-- A registered push token (shared models crate). -/
structure PushToken where
  user_id : String
  push_token : String
  platform : String
  updated_at : String
deriving DecidableEq, Repr

/-- Observable outcome of the reminder loop for one guardian: the notification
send was attempted and either succeeded or failed (a failed send is logged and
does not abort the loop). -/
inductive SweepEvent where
  | reminder_sent (guardian_id : String) (reminder_number : Nat)
  | send_failed (guardian_id : String) (reminder_number : Nat)
deriving DecidableEq, Repr

/-- The guardian a sweep event concerns. -/
def SweepEvent.gid : SweepEvent → String
  | .reminder_sent g _ => g
  | .send_failed g _ => g

/-- Whole hours elapsed for a guardian since its shard was sent, as computed by
process_box: `lock_data_received_at` parsed when parseable, else the box's
`locked_at`; the difference in seconds truncated to hours as chrono's
`num_hours` does. -/
def guardian_hours (parse_rfc3339 : String → Option Int) (now locked_at : Int)
    (g : Guardian) : Int :=
  let shard_sent_at := (g.lock_data_received_at.bind parse_rfc3339).getD locked_at
  (now - shard_sent_at).tdiv 3600

/-- The guardian loop of process_box in src/reminder-service/src/main.rs.
`get_push_tokens` and `send_reminder` are the injected store and push effects; a
push-token lookup failure is propagated with `?` (aborting the remaining
guardians of this box), while a send failure is only recorded.  The result
collects one event per attempted send. -/
def process_guardians (parse_rfc3339 : String → Option Int)
    (get_push_tokens : String → Except String (List PushToken))
    (send_reminder : List PushToken → String → String → String → Nat → Except String Unit)
    (box_name owner_name box_id : String) (now locked_at : Int) :
    List Guardian → Except String (List SweepEvent)
  | [] => .ok []
  | guardian :: rest =>
    if guardian.shard_accepted_at.isSome then
      process_guardians parse_rfc3339 get_push_tokens send_reminder
        box_name owner_name box_id now locked_at rest
    else
      let hours_since_shard := guardian_hours parse_rfc3339 now locked_at guardian
      let reminder_number := determine_reminder_number hours_since_shard
      if reminder_number = 0 then
        process_guardians parse_rfc3339 get_push_tokens send_reminder
          box_name owner_name box_id now locked_at rest
      else
        match get_push_tokens guardian.id with
        | .error e => .error ("Failed to get push token: " ++ e)
        | .ok tokens =>
          if tokens.isEmpty then
            process_guardians parse_rfc3339 get_push_tokens send_reminder
              box_name owner_name box_id now locked_at rest
          else
            let ev := match send_reminder tokens box_name owner_name box_id reminder_number with
              | .ok _ => SweepEvent.reminder_sent guardian.id reminder_number
              | .error _ => SweepEvent.send_failed guardian.id reminder_number
            (process_guardians parse_rfc3339 get_push_tokens send_reminder
              box_name owner_name box_id now locked_at rest).map (fun evs => ev :: evs)

/-- process_box from src/reminder-service/src/main.rs: a box whose `locked_at`
is missing or unparseable is skipped with a warning (an `ok` empty result). -/
def process_box (parse_rfc3339 : String → Option Int)
    (get_push_tokens : String → Except String (List PushToken))
    (send_reminder : List PushToken → String → String → String → Nat → Except String Unit)
    (box_rec : BoxRecord) (now : Int) : Except String (List SweepEvent) :=
  match box_rec.locked_at.bind parse_rfc3339 with
  | none => .ok []
  | some locked_at =>
    let owner_name := box_rec.owner_name.getD "Someone"
    process_guardians parse_rfc3339 get_push_tokens send_reminder
      box_rec.name owner_name box_rec.id now locked_at box_rec.guardians

/-- The sweep of the reminder handler: every scanned locked box is processed; a
per-box error is logged and recorded in that box's outcome, and the loop moves
on to the next box. -/
def sweep_handler (parse_rfc3339 : String → Option Int)
    (get_push_tokens : String → Except String (List PushToken))
    (send_reminder : List PushToken → String → String → String → Nat → Except String Unit)
    (boxes : List BoxRecord) (now : Int) :
    List (String × Except String (List SweepEvent)) :=
  boxes.map (fun b => (b.id, process_box parse_rfc3339 get_push_tokens send_reminder b now))

/-- An invitation record (shared models crate), with timestamps modelled as
integer instants so that expiry comparison is explicit. -/
structure Invitation where
  id : String
  invite_code : String
  invited_name : String
  box_id : String
  created_at : Int
  expires_at : Int
  opened : Bool
  linked_user_id : Option String
  creator_id : String
  is_lead_guardian : Bool
deriving DecidableEq, Repr

/-- Modelled from the spec: the invitation-service redemption operation
`handle(code, caller_id)` (spec section 4.D); its handler source is not under
src/, only its tests.  The code lookup (absent code = NotFound) happens before
this function; given the found invitation, steps follow the spec's order:
expired means `Gone`, then `opened = true` means `Forbidden`, otherwise set
`opened := true` and `linked_user_id := caller_id` and answer with the box id. -/
def handle_invitation (inv : Invitation) (caller_id : String) (now : Int) :
    Except AppError (Invitation × String) :=
  if inv.expires_at ≤ now then
    .error (.gone "Invitation has expired")
  else if inv.opened then
    .error (.forbidden "Invitation has already been used")
  else
    .ok ({ inv with opened := true, linked_user_id := some caller_id }, inv.box_id)

/-- A guardian with no shard data, used to build concrete test states. -/
def bareGuardian (gid inv_id : String) : Guardian :=
  { id := gid, name := "G " ++ gid, status := "accepted", lead_guardian := false,
    added_at := "2026-01-01T00:00:00Z", invitation_id := inv_id,
    encrypted_shard := none, shard_hash := none, shard_fetched_at := none,
    shard_accepted_at := none, lock_data_received_at := none }

/-- A concrete unlocked box owned by `u1` with one guardian `g1`. -/
def exBox : BoxRecord :=
  { id := "box1", name := "Vault", description := "d", is_locked := false,
    locked_at := none, created_at := "t0", updated_at := "t0", owner_id := "u1",
    owner_name := some "Owner One", documents := [], guardians := [bareGuardian "g1" "inv1"],
    unlock_instructions := none, version := 0, shard_threshold := none,
    shards_fetched := none, total_shards := none, shards_deleted_at := none }

/-- A concrete lock payload matching `exBox`. -/
def exLockPayload : LockBoxRequest :=
  { shards := [{ guardian_id := "g1", shard := "a", shard_hash := "h" }],
    shard_threshold := 1 }

/-- The concrete locked box obtained by locking `exBox`. -/
def exLockedBox : BoxRecord :=
  { exBox with
      guardians := [{ bareGuardian "g1" "inv1" with
        encrypted_shard := some "a", shard_hash := some "h", shard_fetched_at := none }],
      is_locked := true, locked_at := some "T1", updated_at := "T1",
      shard_threshold := some 1, total_shards := some 1, shards_fetched := some 0,
      shards_deleted_at := none }

/-- A concrete locked box whose guardian has neither a stored shard nor a fetch
timestamp. -/
def exDrainedBox : BoxRecord :=
  { exLockedBox with
      guardians := [bareGuardian "g1" "inv1"] }

/-- An update payload that only asks to set `is_locked = true`. -/
def exLockTruePayload : UpdateBoxRequest :=
  { name := none, description := none, unlock_instructions := none, is_locked := some true }

/-- The concrete box obtained by `g1` acknowledging its shard on `exLockedBox`
(timestamps `T2` for the fetch, `T3` for the deletion stamp). -/
def exAckedBox : BoxRecord :=
  { exLockedBox with
      guardians := [{ bareGuardian "g1" "inv1" with
        encrypted_shard := none, shard_hash := some "h", shard_fetched_at := some "T2" }],
      shards_fetched := some 1, total_shards := some 1, shards_deleted_at := some "T3" }

/-- A concrete unlocked box in which the identifier "K" is the `invitation_id`
of the first guardian but the `id` of the second. -/
def cbBox : BoxRecord :=
  { exBox with
      guardians := [bareGuardian "" "K", bareGuardian "K" "inv2"] }

/-- A concrete invitation that has been redeemed (`opened = true`, linked to
`u2`) and whose expiry instant is 100. -/
def exOpenedInvitation : Invitation :=
  { id := "inv9", invite_code := "ABCDEFGH", invited_name := "N", box_id := "box9",
    created_at := 0, expires_at := 100, opened := true, linked_user_id := some "u2",
    creator_id := "u1", is_lead_guardian := false }

/-- A concrete locked box with two guardians awaiting reminders. -/
def exSweepBox : BoxRecord :=
  { exLockedBox with
      locked_at := some "T0",
      guardians := [bareGuardian "g1" "i1", bareGuardian "g2" "i2"] }

/-- A concrete timestamp parser: "T0" denotes instant 0, everything else is
unparseable. -/
def exParse : String → Option Int :=
  fun s => if s == "T0" then some 0 else none

/-- A concrete push token for a user. -/
def exTok (uid : String) : PushToken :=
  { user_id := uid, push_token := "ExponentPushToken[x]", platform := "ios",
    updated_at := "T" }

/-- A push-token store whose lookup fails for `g1` and succeeds otherwise. -/
def exGetTokensFail1 : String → Except String (List PushToken) :=
  fun uid => if uid == "g1" then .error "boom" else .ok [exTok uid]

/-- A push-token store whose lookup always succeeds with one token. -/
def exGetTokensOk : String → Except String (List PushToken) :=
  fun uid => .ok [exTok uid]

/-- A push transport whose sends always succeed. -/
def exSendOk : List PushToken → String → String → String → Nat → Except String Unit :=
  fun _ _ _ _ _ => .ok ()

theorem except_map_eq_ok {ε α β : Type} {e : Except ε α} {f : α → β} {b : β} :
    e.map f = .ok b ↔ ∃ a, e = .ok a ∧ b = f a := by
  cases e with
  | error err => simp [Except.map]
  | ok a =>
    simp [Except.map]
    tauto

theorem except_map_eq_error {ε α β : Type} {e : Except ε α} {f : α → β} {err : ε} :
    e.map f = .error err ↔ e = .error err := by
  cases e <;> simp [Except.map]

theorem findIdx?_lt_length {α : Type} {p : α → Bool} {l : List α} {i : Nat}
    (h : l.findIdx? p = some i) : i < l.length := by
  induction l generalizing i with
  | nil => simp [List.findIdx?_nil] at h
  | cons a t ih =>
    rw [List.findIdx?_cons] at h
    by_cases hp : p a
    · simp [hp] at h
      simp [List.length_cons]
      omega
    · simp [hp, Option.map_eq_some'] at h
      obtain ⟨j, hj, rfl⟩ := h
      have := ih hj
      simp
      omega

theorem findIdx?_getElem_prop {α : Type} {p : α → Bool} {l : List α} {i : Nat} {a : α}
    (h : l.findIdx? p = some i) (ha : l[i]? = some a) : p a = true := by
  induction l generalizing i with
  | nil => simp [List.findIdx?_nil] at h
  | cons x t ih =>
    rw [List.findIdx?_cons] at h
    by_cases hp : p x
    · simp [hp] at h
      subst h
      simp at ha
      subst ha
      exact hp
    · simp [hp, Option.map_eq_some'] at h
      obtain ⟨j, hj, rfl⟩ := h
      exact ih hj (by simpa using ha)

theorem findIdx?_set_self {α : Type} {p : α → Bool} {l : List α} {i : Nat}
    (h : l.findIdx? p = some i) {b : α} (hb : p b = true) :
    (l.set i b).findIdx? p = some i := by
  induction l generalizing i with
  | nil => simp [List.findIdx?_nil] at h
  | cons a t ih =>
    rw [List.findIdx?_cons] at h
    by_cases hp : p a
    · simp [hp] at h
      subst h
      simp [List.set, List.findIdx?_cons, hb]
    · simp [hp, Option.map_eq_some'] at h
      obtain ⟨j, hj, rfl⟩ := h
      simp [List.set, List.findIdx?_cons, hp, ih hj]

theorem find_guardian_iff {gs : List Guardian} {uid : String} {i : Nat} {g : Guardian} :
    find_guardian gs uid = some (i, g) ↔
      gs.findIdx? (fun x => x.id == uid) = some i ∧ gs[i]? = some g := by
  unfold find_guardian find_indexed
  cases hfi : gs.findIdx? (fun x => x.id == uid) with
  | none => simp
  | some j =>
    simp only [Option.map_eq_some']
    constructor
    · rintro ⟨g', hg', heq⟩
      cases heq
      exact ⟨rfl, hg'⟩
    · rintro ⟨hj, hg⟩
      cases hj
      exact ⟨g, hg, rfl⟩

theorem find_guardian_id {gs : List Guardian} {uid : String} {i : Nat} {g : Guardian}
    (h : find_guardian gs uid = some (i, g)) : g.id = uid := by
  obtain ⟨hfi, hget⟩ := find_guardian_iff.mp h
  have := findIdx?_getElem_prop hfi hget
  simpa using this

theorem find_guardian_mem {gs : List Guardian} {uid : String} {i : Nat} {g : Guardian}
    (h : find_guardian gs uid = some (i, g)) : g ∈ gs :=
  List.getElem?_mem (find_guardian_iff.mp h).2

theorem find_guardian_set {gs : List Guardian} {uid : String} {i : Nat} {g g' : Guardian}
    (h : find_guardian gs uid = some (i, g)) (hid : g'.id = uid) :
    find_guardian (gs.set i g') uid = some (i, g') := by
  obtain ⟨hfi, _⟩ := find_guardian_iff.mp h
  refine find_guardian_iff.mpr ⟨findIdx?_set_self hfi (by simp [hid]), ?_⟩
  exact List.getElem?_set_self (findIdx?_lt_length hfi)

/-- C6: the reminder window function returns 1 exactly on hours 24-29, 2 exactly
on 72-77, 3 exactly on 168-173 and 0 otherwise; at the listed sample hours it
yields the listed reminder numbers. -/
theorem determine_reminder_number_windows :
    (∀ h : Int,
      (determine_reminder_number h = 1 ↔ 24 ≤ h ∧ h < 30) ∧
      (determine_reminder_number h = 2 ↔ 72 ≤ h ∧ h < 78) ∧
      (determine_reminder_number h = 3 ↔ 168 ≤ h ∧ h < 174) ∧
      (¬(24 ≤ h ∧ h < 30) → ¬(72 ≤ h ∧ h < 78) → ¬(168 ≤ h ∧ h < 174) →
        determine_reminder_number h = 0)) ∧
    [(0 : Int), 23, 24, 29, 30, 71, 72, 77, 78, 167, 168, 173, 174, 200].map
        determine_reminder_number = [0, 0, 1, 1, 0, 0, 2, 2, 0, 0, 3, 3, 0, 0] := by
  constructor
  · intro h
    unfold determine_reminder_number REMINDER_1_HOURS REMINDER_2_HOURS REMINDER_3_HOURS
      GRACE_PERIOD_HOURS
    refine ⟨?_, ?_, ?_, ?_⟩ <;> split_ifs <;> simp <;> omega
  · decide

/-- Sample use of the C6 theorem at a concrete hour outside all windows. -/
theorem determine_reminder_number_windows_witness : determine_reminder_number 50 = 0 :=
  (determine_reminder_number_windows.1 50).2.2.2 (by decide) (by decide) (by decide)

theorem find?_shard_some {shards : List ShardInput} {gid : String}
    (h : ∃ s ∈ shards, s.guardian_id = gid) :
    ∃ s', shards.find? (fun x => x.guardian_id == gid) = some s' ∧
      s' ∈ shards ∧ s'.guardian_id = gid := by
  rcases hfs : shards.find? (fun x => x.guardian_id == gid) with _ | s'
  · obtain ⟨s, hs, hid⟩ := h
    have := List.find?_eq_none.mp hfs s hs
    simp [hid] at this
  · exact ⟨s', hfs, List.mem_of_find?_eq_some hfs, by simpa using List.find?_some hfs⟩

theorem assign_shards_ok_of_matching (shards : List ShardInput) (gs : List Guardian)
    (h : ∀ g ∈ gs, ∃ s ∈ shards, s.guardian_id = g.id) :
    assign_shards shards gs = .ok (gs.map (assign_one shards)) := by
  induction gs with
  | nil => simp [assign_shards]
  | cons g rest ih =>
    obtain ⟨s', hs', _, _⟩ := find?_shard_some (h g (by simp))
    have ihr := ih (fun g' hg' => h g' (by simp [hg']))
    simp [assign_shards, assign_one, hs', ihr, Except.map]

theorem assign_shards_error_of_missing (shards : List ShardInput) (gs : List Guardian)
    (h : ∃ g ∈ gs, ∀ s ∈ shards, s.guardian_id ≠ g.id) :
    ∃ g ∈ gs, (∀ s ∈ shards, s.guardian_id ≠ g.id) ∧
      assign_shards shards gs = .error (.badRequest ("Missing shard for guardian " ++ g.id)) := by
  induction gs with
  | nil => simp at h
  | cons g rest ih =>
    rcases hfs : shards.find? (fun x => x.guardian_id == g.id) with _ | s'
    · refine ⟨g, by simp, ?_, by simp [assign_shards, hfs]⟩
      intro s hs
      have := List.find?_eq_none.mp hfs s hs
      simpa using this
    · have hmem := List.mem_of_find?_eq_some hfs
      have hid : s'.guardian_id = g.id := by simpa using List.find?_some hfs
      obtain ⟨g', hg', hprop⟩ := h
      rcases List.mem_cons.mp hg' with rfl | hg'rest
      · exact absurd hid (hprop s' hmem)
      · obtain ⟨g'', hg'', hprop'', herr⟩ := ih ⟨g', hg'rest, hprop⟩
        exact ⟨g'', by simp [hg''], hprop'', by simp [assign_shards, hfs, herr, Except.map]⟩

theorem assign_shards_ok_fields {shards : List ShardInput} {gs gs' : List Guardian}
    (h : assign_shards shards gs = .ok gs') :
    ∀ g' ∈ gs', (∃ v, g'.encrypted_shard = some v) ∧ g'.shard_fetched_at = none := by
  induction gs generalizing gs' with
  | nil =>
    simp [assign_shards] at h
    subst h
    simp
  | cons g rest ih =>
    rcases hfs : shards.find? (fun x => x.guardian_id == g.id) with _ | s'
    · simp [assign_shards, hfs] at h
    · rw [assign_shards, hfs] at h
      obtain ⟨rest', hrest, rfl⟩ := except_map_eq_ok.mp h
      intro g' hg'
      rcases List.mem_cons.mp hg' with rfl | hmem
      · exact ⟨⟨s'.shard, rfl⟩, rfl⟩
      · exact ih hrest g' hmem

theorem lock_box_ok_inv {box_rec : BoxRecord} {user_id : String} {payload : LockBoxRequest}
    {now : String} {box' : BoxRecord} (h : lock_box box_rec user_id payload now = .ok box') :
    ∃ gs', assign_shards payload.shards box_rec.guardians = .ok gs' ∧
      box'.guardians = gs' ∧ box'.is_locked = true := by
  unfold lock_box at h
  split_ifs at h
  obtain ⟨gs', hgs', rfl⟩ := except_map_eq_ok.mp h
  exact ⟨gs', hgs', rfl, rfl⟩

/-- C1: lock_box, after the owner and not-already-locked checks, validates the
shard count, then the threshold, then per-guardian shard presence (naming the
first guardian without a shard), each failure a `BadRequest`; on success the
single written record is locked at `now` with each guardian holding its matching
shard, `shard_fetched_at` cleared, the requested threshold, `total_shards`
equal to the number of guardians, `shards_fetched = 0` and no deletion stamp. -/
theorem lock_box_spec (box_rec : BoxRecord) (user_id : String) (payload : LockBoxRequest)
    (now : String) (hown : box_rec.owner_id = user_id) (hnl : box_rec.is_locked = false) :
    (payload.shards.length ≠ box_rec.guardians.length →
      lock_box box_rec user_id payload now =
        .error (.badRequest "Shard count must match the number of guardians.")) ∧
    (payload.shards.length = box_rec.guardians.length →
      (payload.shard_threshold < 1 ∨ payload.shard_threshold > payload.shards.length) →
      lock_box box_rec user_id payload now =
        .error (.badRequest "Shard threshold must be between 1 and the number of guardians.")) ∧
    (payload.shards.length = box_rec.guardians.length →
      1 ≤ payload.shard_threshold → payload.shard_threshold ≤ payload.shards.length →
      (∃ g ∈ box_rec.guardians, ∀ s ∈ payload.shards, s.guardian_id ≠ g.id) →
      ∃ g ∈ box_rec.guardians, (∀ s ∈ payload.shards, s.guardian_id ≠ g.id) ∧
        lock_box box_rec user_id payload now =
          .error (.badRequest ("Missing shard for guardian " ++ g.id))) ∧
    (payload.shards.length = box_rec.guardians.length →
      1 ≤ payload.shard_threshold → payload.shard_threshold ≤ payload.shards.length →
      (∀ g ∈ box_rec.guardians, ∃ s ∈ payload.shards, s.guardian_id = g.id) →
      ∃ box', lock_box box_rec user_id payload now = .ok box' ∧
        box'.is_locked = true ∧ box'.locked_at = some now ∧ box'.updated_at = now ∧
        box'.shard_threshold = some payload.shard_threshold ∧
        box'.total_shards = some box_rec.guardians.length ∧
        box'.shards_fetched = some 0 ∧ box'.shards_deleted_at = none ∧
        box'.guardians = box_rec.guardians.map (assign_one payload.shards) ∧
        ∀ g ∈ box_rec.guardians, ∃ s ∈ payload.shards, s.guardian_id = g.id ∧
          assign_one payload.shards g =
            { g with encrypted_shard := some s.shard, shard_hash := some s.shard_hash,
                     shard_fetched_at := none }) := by
  have hown' : ¬ box_rec.owner_id ≠ user_id := by simp [hown]
  refine ⟨?_, ?_, ?_, ?_⟩
  · intro hne
    simp [lock_box, hown', hnl, hne]
  · intro hlen hthr
    have hlen' : ¬ payload.shards.length ≠ box_rec.guardians.length := by simp [hlen]
    simp only [lock_box, hown', hnl, hlen', if_false, Bool.false_eq_true, if_neg,
      not_false_eq_true]
    rw [if_pos hthr]
  · intro hlen h1 h2 hmiss
    have hlen' : ¬ payload.shards.length ≠ box_rec.guardians.length := by simp [hlen]
    have hthr : ¬ (payload.shard_threshold < 1 ∨
        payload.shard_threshold > payload.shards.length) := by omega
    obtain ⟨g, hg, hprop, herr⟩ := assign_shards_error_of_missing payload.shards
      box_rec.guardians hmiss
    refine ⟨g, hg, hprop, ?_⟩
    simp only [lock_box, hown', hnl, hlen', hthr, if_neg, not_false_eq_true,
      Bool.false_eq_true, if_false]
    simp [herr, Except.map]
  · intro hlen h1 h2 hmatch
    have hlen' : ¬ payload.shards.length ≠ box_rec.guardians.length := by simp [hlen]
    have hthr : ¬ (payload.shard_threshold < 1 ∨
        payload.shard_threshold > payload.shards.length) := by omega
    have hok := assign_shards_ok_of_matching payload.shards box_rec.guardians hmatch
    refine ⟨{ box_rec with
        guardians := box_rec.guardians.map (assign_one payload.shards),
        is_locked := true, locked_at := some now, updated_at := now,
        shard_threshold := some payload.shard_threshold,
        total_shards := some payload.shards.length,
        shards_fetched := some 0, shards_deleted_at := none },
      ?_, rfl, rfl, rfl, rfl, by simp [hlen], rfl, rfl, rfl, ?_⟩
    · simp only [lock_box, hown', hnl, hlen', hthr, if_neg, not_false_eq_true,
        Bool.false_eq_true, if_false]
      simp [hok, Except.map]
    · intro g hg
      obtain ⟨s', hs', hmem, hid⟩ := find?_shard_some (hmatch g hg)
      exact ⟨s', hmem, hid, by simp [assign_one, hs']⟩

/-- Concrete run of the C1 success case: locking `exBox` with its matching
payload succeeds and produces a locked record with all lock fields set. -/
theorem lock_box_spec_witness :
    ∃ box', lock_box exBox "u1" exLockPayload "T1" = .ok box' ∧
      box'.is_locked = true ∧ box'.locked_at = some "T1" := by
  obtain ⟨box', hok, hl, hla, _⟩ :=
    (lock_box_spec exBox "u1" exLockPayload "T1" rfl rfl).2.2.2 rfl
      (by decide) (by decide) (by decide)
  exact ⟨box', hok, hl, hla⟩

theorem fetch_ok_state {box_rec : BoxRecord} {uid : String} {box' : BoxRecord}
    {r : FetchShardResponse} (h : fetch_guardian_shard box_rec uid = .ok (box', r)) :
    box' = box_rec := by
  unfold fetch_guardian_shard at h
  split_ifs at h
  rcases hfg : find_guardian box_rec.guardians uid with _ | ⟨i, g⟩ <;> rw [hfg] at h
  · simp at h
  · simp only at h
    split_ifs at h
    rcases hes : g.encrypted_shard with _ | v <;> rw [hes] at h
    · simp at h
    · simp only [Except.ok.injEq, Prod.mk.injEq] at h
      exact h.1.symm

theorem ack_ok_inv {box_rec : BoxRecord} {uid now now2 : String} {box' : BoxRecord}
    {r : AckShardResponse} (h : acknowledge_guardian_shard box_rec uid now now2 = .ok (box', r)) :
    box' = box_rec ∨
    ∃ i g, find_guardian box_rec.guardians uid = some (i, g) ∧
      box'.is_locked = box_rec.is_locked ∧
      box'.guardians = box_rec.guardians.set i
        { g with shard_fetched_at := some now, encrypted_shard := none } := by
  unfold acknowledge_guardian_shard at h
  split_ifs at h
  rcases hfg : find_guardian box_rec.guardians uid with _ | ⟨i, g⟩ <;> rw [hfg] at h
  · simp at h
  · simp only at h
    split_ifs at h with h1 h2 h3
    · simp only [Except.ok.injEq, Prod.mk.injEq] at h
      exact Or.inl h.1.symm
    · simp only [Except.ok.injEq, Prod.mk.injEq] at h
      obtain ⟨hbox, -⟩ := h
      subst hbox
      exact Or.inr ⟨i, g, rfl, rfl, rfl⟩
    · simp only [Except.ok.injEq, Prod.mk.injEq] at h
      obtain ⟨hbox, -⟩ := h
      subst hbox
      exact Or.inr ⟨i, g, rfl, rfl, rfl⟩

theorem accept_ok_inv {box_rec : BoxRecord} {uid now now2 : String} {box' : BoxRecord}
    {r : AcceptShardResponse} (h : accept_guardian_shard box_rec uid now now2 = .ok (box', r)) :
    box' = box_rec ∨
    ∃ i g, find_guardian box_rec.guardians uid = some (i, g) ∧
      box'.is_locked = box_rec.is_locked ∧
      box'.guardians = box_rec.guardians.set i { g with shard_accepted_at := some now } := by
  unfold accept_guardian_shard at h
  split_ifs at h
  rcases hfg : find_guardian box_rec.guardians uid with _ | ⟨i, g⟩ <;> rw [hfg] at h
  · simp at h
  · simp only at h
    split_ifs at h
    · simp only [Except.ok.injEq, Prod.mk.injEq] at h
      exact Or.inl h.1.symm
    · simp only [Except.ok.injEq, Prod.mk.injEq] at h
      obtain ⟨hbox, -⟩ := h
      subst hbox
      exact Or.inr ⟨i, g, rfl, rfl, rfl⟩

/-- C2: invariant P1 - in a locked box a guardian's ciphertext is absent exactly
when its fetch timestamp is present - holds of every state produced by lock_box
and is preserved by fetch, acknowledge and accept. -/
theorem shard_invariant_preserved :
    (∀ box_rec uid payload now box',
      lock_box box_rec uid payload now = .ok box' → shardInvariant box') ∧
    (∀ box_rec uid box' r, fetch_guardian_shard box_rec uid = .ok (box', r) →
      shardInvariant box_rec → shardInvariant box') ∧
    (∀ box_rec uid n1 n2 box' r,
      acknowledge_guardian_shard box_rec uid n1 n2 = .ok (box', r) →
      shardInvariant box_rec → shardInvariant box') ∧
    (∀ box_rec uid n1 n2 box' r,
      accept_guardian_shard box_rec uid n1 n2 = .ok (box', r) →
      shardInvariant box_rec → shardInvariant box') := by
  refine ⟨?_, ?_, ?_, ?_⟩
  · intro box_rec uid payload now box' h _ g hg
    obtain ⟨gs', hassign, hguard, _⟩ := lock_box_ok_inv h
    rw [hguard] at hg
    obtain ⟨⟨v, hv⟩, hfetch⟩ := assign_shards_ok_fields hassign g hg
    simp [hv, hfetch]
  · intro box_rec uid box' r h hinv
    rw [fetch_ok_state h]
    exact hinv
  · intro box_rec uid n1 n2 box' r h hinv
    rcases ack_ok_inv h with rfl | ⟨i, g, _, hlock, hguard⟩
    · exact hinv
    · intro hl g' hg'
      rw [hguard] at hg'
      rcases List.mem_or_eq_of_mem_set hg' with hmem | rfl
      · exact hinv (hlock ▸ hl) g' hmem
      · simp
  · intro box_rec uid n1 n2 box' r h hinv
    rcases accept_ok_inv h with rfl | ⟨i, g, hfg, hlock, hguard⟩
    · exact hinv
    · intro hl g' hg'
      rw [hguard] at hg'
      rcases List.mem_or_eq_of_mem_set hg' with hmem | rfl
      · exact hinv (hlock ▸ hl) g' hmem
      · simpa using hinv (hlock ▸ hl) g (find_guardian_mem hfg)

/-- Concrete run of C2: the invariant holds of the state after `g1` acknowledged
its shard on the concrete locked box, via the acknowledge conjunct. -/
theorem shard_invariant_preserved_witness : shardInvariant exAckedBox :=
  shard_invariant_preserved.2.2.1 exLockedBox "g1" "T2" "T3" exAckedBox
    { shardFetchedAt := some "T2", totalShards := 1, shardsFetched := 1 }
    (by rfl)
    (by
      intro hl g hg
      simp only [exLockedBox, exBox, bareGuardian, List.mem_singleton] at hg
      subst hg
      simp)

/-- C3: acknowledging a present shard stamps the guardian's `shard_fetched_at`
with now, clears the ciphertext, recomputes `shards_fetched` as the count of
fetched guardians, sets `total_shards` to the guardian count, stamps
`shards_deleted_at` exactly when the count reaches the total, and a second
acknowledge by the same guardian returns the same `shardFetchedAt` without
changing the stored record. -/
theorem acknowledge_shard_spec (box_rec : BoxRecord) (uid n1 n2 : String) (i : Nat)
    (g : Guardian) (s : String)
    (hl : box_rec.is_locked = true)
    (hf : find_guardian box_rec.guardians uid = some (i, g))
    (hs : g.encrypted_shard = some s) :
    ∃ box' cnt,
      acknowledge_guardian_shard box_rec uid n1 n2 =
        .ok (box', { shardFetchedAt := some n1,
                     totalShards := box_rec.guardians.length,
                     shardsFetched := cnt }) ∧
      box'.guardians = box_rec.guardians.set i
        { g with shard_fetched_at := some n1, encrypted_shard := none } ∧
      cnt = box'.guardians.countP (fun x => x.shard_fetched_at.isSome) ∧
      box'.shards_fetched = some cnt ∧
      box'.total_shards = some box_rec.guardians.length ∧
      box'.shards_deleted_at =
        (if cnt = box_rec.guardians.length then some n2 else box_rec.shards_deleted_at) ∧
      ∀ n3 n4, acknowledge_guardian_shard box' uid n3 n4 =
        .ok (box', { shardFetchedAt := some n1,
                     totalShards := box_rec.guardians.length,
                     shardsFetched := cnt }) := by
  have hnl : ¬ box_rec.is_locked = false := by simp [hl]
  set g' : Guardian := { g with shard_fetched_at := some n1, encrypted_shard := none } with hg'
  set gs' : List Guardian := box_rec.guardians.set i g' with hgs'
  set cnt : Nat := gs'.countP (fun x => x.shard_fetched_at.isSome) with hcnt
  set B : BoxRecord := { box_rec with
      guardians := gs',
      shards_fetched := some cnt,
      total_shards := some box_rec.guardians.length,
      shards_deleted_at :=
        if cnt = box_rec.guardians.length then some n2 else box_rec.shards_deleted_at } with hB
  have hok : acknowledge_guardian_shard box_rec uid n1 n2 =
      .ok (B, { shardFetchedAt := some n1,
                totalShards := box_rec.guardians.length,
                shardsFetched := cnt }) := by
    unfold acknowledge_guardian_shard
    rw [if_neg hnl, hf]
    simp only [hs, Option.isNone_some, Bool.and_false, Bool.false_eq_true, if_false]
  refine ⟨B, cnt, hok, rfl, rfl, rfl, rfl, rfl, ?_⟩
  intro n3 n4
  have hid : g'.id = uid := by
    have := find_guardian_id hf
    simpa [hg'] using this
  have hfg' : find_guardian B.guardians uid = some (i, g') := find_guardian_set hf hid
  have hnl' : ¬ B.is_locked = false := by
    rw [hB]
    simpa using hl
  unfold acknowledge_guardian_shard
  rw [if_neg hnl', hfg']
  have hcond : (g'.shard_fetched_at.isSome && g'.encrypted_shard.isNone) = true := by
    simp [hg']
  simp only [hcond, if_true]
  simp [hgs']

/-- Concrete run of C3: acknowledging `g1`'s shard on the concrete locked box
succeeds and reports the fresh fetch timestamp. -/
theorem acknowledge_shard_spec_witness :
    ∃ box' cnt, acknowledge_guardian_shard exLockedBox "g1" "T2" "T3" =
      .ok (box', { shardFetchedAt := some "T2",
                   totalShards := exLockedBox.guardians.length,
                   shardsFetched := cnt }) := by
  obtain ⟨box', cnt, hok, -⟩ := acknowledge_shard_spec exLockedBox "g1" "T2" "T3" 0
    { bareGuardian "g1" "inv1" with encrypted_shard := some "a", shard_hash := some "h" } "a"
    rfl (by decide) rfl
  exact ⟨box', cnt, hok⟩

/-- C4 counterexample: on the locked box `exDrainedBox`, whose guardian `g1` has
neither a stored shard nor a fetch timestamp, fetch returns BadRequest - not the
NotFound the claim requires for an unset `shard_fetched_at`. -/
theorem fetch_shard_badrequest_counterexample :
    fetch_guardian_shard exDrainedBox "g1" =
      .error (.badRequest "Shard already fetched and removed from server storage.") := by
  rfl

/-- C4 amended: when the guardian's `encrypted_shard` is null, fetch returns
BadRequest regardless of `shard_fetched_at`, and no execution of fetch changes
the stored record. -/
theorem fetch_shard_error_amended (box_rec : BoxRecord) (uid : String) (i : Nat)
    (g : Guardian)
    (hl : box_rec.is_locked = true)
    (hf : find_guardian box_rec.guardians uid = some (i, g))
    (he : g.encrypted_shard = none) :
    fetch_guardian_shard box_rec uid =
      .error (.badRequest "Shard already fetched and removed from server storage.") ∧
    ∀ b u b' r, fetch_guardian_shard b u = .ok (b', r) → b' = b := by
  constructor
  · unfold fetch_guardian_shard
    rw [if_neg (by simp [hl]), hf]
    simp [he]
  · intro b u b' r h
    exact fetch_ok_state h

/-- Concrete run of the C4 amended theorem on `exDrainedBox`. -/
theorem fetch_shard_error_amended_witness :
    fetch_guardian_shard exDrainedBox "g1" =
      .error (.badRequest "Shard already fetched and removed from server storage.") :=
  (fetch_shard_error_amended exDrainedBox "g1" 0 (bareGuardian "g1" "inv1")
    rfl (by decide) rfl).1

/-- C10: the NotFound branch after the presence check in fetch_guardian_shard is
unreachable - when the guardian's shard is present the fetch returns it, and no
execution of fetch returns that NotFound error. -/
theorem fetch_notfound_unreachable :
    (∀ box_rec uid i g s, box_rec.is_locked = true →
      find_guardian box_rec.guardians uid = some (i, g) →
      g.encrypted_shard = some s →
      fetch_guardian_shard box_rec uid =
        .ok (box_rec,
          { encryptedShard := s,
            shardHash := g.shard_hash,
            shardFetchedAt := g.shard_fetched_at,
            shardThreshold := box_rec.shard_threshold.getD box_rec.guardians.length,
            totalShards := box_rec.guardians.length })) ∧
    (∀ box_rec uid m, fetch_guardian_shard box_rec uid ≠ .error (.notFound m)) := by
  constructor
  · intro box_rec uid i g s hl hf hs
    unfold fetch_guardian_shard
    rw [if_neg (by simp [hl]), hf]
    simp [hs]
  · intro box_rec uid m h
    unfold fetch_guardian_shard at h
    split_ifs at h with h1
    · simp at h
    · rcases hfg : find_guardian box_rec.guardians uid with _ | ⟨i, g⟩ <;> rw [hfg] at h
      · simp at h
      · simp only at h
        split_ifs at h with h2
        · simp at h
        · rcases hes : g.encrypted_shard with _ | v <;> rw [hes] at h
          · exact h2 (by simp [hes])
          · simp at h

/-- Concrete run of C10: fetching `g1`'s present shard on the concrete locked
box returns the shard. -/
theorem fetch_notfound_unreachable_witness :
    fetch_guardian_shard exLockedBox "g1" =
      .ok (exLockedBox,
        { encryptedShard := "a", shardHash := some "h", shardFetchedAt := none,
          shardThreshold := 1, totalShards := 1 }) :=
  fetch_notfound_unreachable.1 exLockedBox "g1" 0
    { bareGuardian "g1" "inv1" with encrypted_shard := some "a", shard_hash := some "h" } "a"
    rfl (by decide) rfl

/-- C5 counterexample: the generic update endpoint does perform the
false-to-true lock transition - updating the unlocked `exBox` with a payload
carrying only `is_locked = true` succeeds and returns a locked record with
`locked_at` stamped, contradicting the claim that the generic update operation
never performs the lock transition. -/
theorem update_box_locks_counterexample :
    (update_box exBox "u1" exLockTruePayload "T9").map (fun b => (b.is_locked, b.locked_at)) =
      .ok (true, some "T9") := by
  rfl

/-- C5 amended: flipping `is_locked` from true to false through the generic
update always fails with BadRequest (hence no write); but the generic update
operation itself does perform the false-to-true lock transition, setting
`locked_at = now`, whenever `is_locked = true` is supplied on an unlocked box. -/
theorem update_box_amended (box0 : BoxRecord) (uid : String) (payload : UpdateBoxRequest)
    (now : String) (hown : box0.owner_id = uid) :
    (box0.is_locked = true → payload.is_locked = some false →
      ∃ m, update_box box0 uid payload now = .error (.badRequest m)) ∧
    (box0.is_locked = false → payload.is_locked = some true →
      ∃ box', update_box box0 uid payload now = .ok box' ∧
        box'.is_locked = true ∧ box'.locked_at = some now) := by
  have hlock3 : (apply_unlock_instructions payload
      (apply_description payload (apply_name payload box0))).is_locked = box0.is_locked := by
    unfold apply_unlock_instructions apply_description apply_name
    rcases payload.name with _ | n <;> rcases payload.description with _ | d <;>
      rcases payload.unlock_instructions with _ | fu <;> first
        | rfl
        | (rcases fu with v | _ <;> rfl)
  constructor
  · intro hl hfl
    by_cases hother : (payload.name.isSome || payload.description.isSome
        || payload.unlock_instructions.isSome) = true
    · refine ⟨"Cannot modify a locked box. Locked boxes are immutable.", ?_⟩
      unfold update_box
      rw [if_neg (by simp [hown])]
      simp [hl, hother]
    · refine ⟨"Cannot unlock a locked box. Locked boxes are immutable.", ?_⟩
      unfold update_box
      rw [if_neg (by simp [hown])]
      simp only [Bool.not_eq_true] at hother
      rw [hfl]
      simp [hother, hlock3, hl]
  · intro hl hlt
    refine ⟨{ (apply_unlock_instructions payload
        (apply_description payload (apply_name payload box0))) with
        locked_at := some now, is_locked := true }, ?_, rfl, rfl⟩
    unfold update_box
    rw [if_neg (by simp [hown])]
    rw [hlt]
    simp [hl, hlock3]

/-- Concrete run of the C5 amended theorem: on the locked `exLockedBox` an
update payload asking `is_locked = false` fails with BadRequest. -/
theorem update_box_amended_witness :
    ∃ m, update_box exLockedBox "u1"
      { name := none, description := none, unlock_instructions := none,
        is_locked := some false } "T9" = .error (.badRequest m) :=
  (update_box_amended exLockedBox "u1"
    { name := none, description := none, unlock_instructions := none,
      is_locked := some false } "T9" rfl).1 rfl rfl

/-- C9: evaluation at the failing input.  The identifier "K" names guardian
`gB` (second in the list) by `id`, but also guardian `gA` (first, with empty
id) by `invitation_id`; the handler's single-pass OR match removes `gA` - the
guardian matched by `invitation_id` - even though a guardian with that exact
`id` exists, so the id match does not take priority. -/
theorem delete_guardian_or_match_bug :
    (delete_guardian_from_box cbBox "u1" "K").map
      (fun r => (r.2.id, r.2.invitation_id, r.1.guardians.map Guardian.id)) =
      .ok ("", "K", ["K"]) := by
  rfl

/-- C7 counterexample (spec-modelled): handling the opened invitation
`exOpenedInvitation` after its expiry instant returns Gone, not the Forbidden
the claim requires for every opened invitation. -/
theorem handle_opened_gone_counterexample :
    handle_invitation exOpenedInvitation "u3" 200 =
      .error (.gone "Invitation has expired") := by
  rfl

/-- C7 amended (spec-modelled): a handle call on an opened invitation always
fails - Forbidden when unexpired, Gone when already expired - and never
returns a written invitation, so a recorded `linked_user_id` is never
reassigned; a successful handle happens only on an unopened invitation and
links the caller. -/
theorem handle_invitation_amended (inv : Invitation) (caller : String) (now : Int)
    (ho : inv.opened = true) :
    (now < inv.expires_at →
      handle_invitation inv caller now =
        .error (.forbidden "Invitation has already been used")) ∧
    (inv.expires_at ≤ now →
      handle_invitation inv caller now = .error (.gone "Invitation has expired")) ∧
    (∀ inv' r, handle_invitation inv caller now ≠ .ok (inv', r)) ∧
    (∀ inv0 c0 n0 inv1 r, handle_invitation inv0 c0 n0 = .ok (inv1, r) →
      inv0.opened = false ∧ inv1.opened = true ∧ inv1.linked_user_id = some c0) := by
  refine ⟨?_, ?_, ?_, ?_⟩
  · intro hnow
    unfold handle_invitation
    rw [if_neg (by omega), if_pos ho]
  · intro hnow
    unfold handle_invitation
    rw [if_pos hnow]
  · intro inv' r h
    unfold handle_invitation at h
    split_ifs at h
  · intro inv0 c0 n0 inv1 r h
    unfold handle_invitation at h
    split_ifs at h with h1 h2
    simp only [Except.ok.injEq, Prod.mk.injEq] at h
    obtain ⟨hinv, -⟩ := h
    subst hinv
    exact ⟨by simpa using h2, rfl, rfl⟩

/-- Concrete run of the C7 amended theorem: handling the opened (unexpired at
instant 0) invitation fails with Forbidden. -/
theorem handle_invitation_amended_witness :
    handle_invitation exOpenedInvitation "u3" 0 =
      .error (.forbidden "Invitation has already been used") :=
  (handle_invitation_amended exOpenedInvitation "u3" 0 rfl).1 (by decide)

/-- C8 counterexample: with a push-token store failing for `g1`, processing the
two-guardian box `exSweepBox` (both guardians inside the first reminder window)
aborts with the lookup error - no event at all is produced, so the second
guardian of the same box is not processed, contrary to the claim. -/
theorem sweep_token_error_counterexample :
    process_box exParse exGetTokensFail1 exSendOk exSweepBox 90000 =
      .error "Failed to get push token: boom" := by
  rfl

theorem process_guardians_cons (parse : String → Option Int)
    (gets : String → Except String (List PushToken))
    (send : List PushToken → String → String → String → Nat → Except String Unit)
    (bn ow bid : String) (now la : Int) (g : Guardian) (rest : List Guardian) :
    process_guardians parse gets send bn ow bid now la (g :: rest) =
      (if g.shard_accepted_at.isSome then
         process_guardians parse gets send bn ow bid now la rest
       else if determine_reminder_number (guardian_hours parse now la g) = 0 then
         process_guardians parse gets send bn ow bid now la rest
       else
         match gets g.id with
         | .error e => .error ("Failed to get push token: " ++ e)
         | .ok tokens =>
           if tokens.isEmpty then
             process_guardians parse gets send bn ow bid now la rest
           else
             (process_guardians parse gets send bn ow bid now la rest).map
               (fun evs =>
                 (match send tokens bn ow bid
                     (determine_reminder_number (guardian_hours parse now la g)) with
                  | .ok _ => SweepEvent.reminder_sent g.id
                      (determine_reminder_number (guardian_hours parse now la g))
                  | .error _ => SweepEvent.send_failed g.id
                      (determine_reminder_number (guardian_hours parse now la g))) :: evs)) :=
  rfl

/-- C8 amended: a notification-send failure never aborts the guardian loop (the
loop can only abort through a push-token lookup failure); when every lookup
succeeds the loop completes and attempts a send for every guardian that is due
and has tokens; and the sweep processes every scanned box independently of the
outcomes of the others. -/
theorem sweep_amended :
    (∀ parse gets send bn ow bid now la gs e,
      process_guardians parse gets send bn ow bid now la gs = .error e →
      ∃ g ∈ gs, ∃ msg, gets g.id = .error msg ∧
        e = "Failed to get push token: " ++ msg) ∧
    (∀ parse gets send bn ow bid now la gs,
      (∀ g ∈ gs, ∃ ts, gets g.id = .ok ts) →
      ∃ evs, process_guardians parse gets send bn ow bid now la gs = .ok evs ∧
        ∀ g ∈ gs, g.shard_accepted_at = none →
          determine_reminder_number (guardian_hours parse now la g) ≠ 0 →
          (∀ ts, gets g.id = .ok ts → ts ≠ []) →
          ∃ ev ∈ evs, SweepEvent.gid ev = g.id) ∧
    (∀ parse gets send now pre b post,
      sweep_handler parse gets send (pre ++ b :: post) now =
        sweep_handler parse gets send pre now ++
          (b.id, process_box parse gets send b now) ::
            sweep_handler parse gets send post now) := by
  refine ⟨?_, ?_, ?_⟩
  · intro parse gets send bn ow bid now la gs
    induction gs with
    | nil => intro e h; simp [process_guardians] at h
    | cons g rest ih =>
      intro e h
      rw [process_guardians_cons] at h
      split_ifs at h with h1 h2
      · obtain ⟨g', hg', hrest⟩ := ih e h
        exact ⟨g', by simp [hg'], hrest⟩
      · obtain ⟨g', hg', hrest⟩ := ih e h
        exact ⟨g', by simp [hg'], hrest⟩
      · rcases hgt : gets g.id with msg | ts <;> rw [hgt] at h
        · simp only [Except.error.injEq] at h
          exact ⟨g, by simp, msg, hgt, h.symm⟩
        · simp only at h
          split_ifs at h with h3
          · obtain ⟨g', hg', hrest⟩ := ih e h
            exact ⟨g', by simp [hg'], hrest⟩
          · rw [except_map_eq_error] at h
            obtain ⟨g', hg', hrest⟩ := ih e h
            exact ⟨g', by simp [hg'], hrest⟩
  · intro parse gets send bn ow bid now la gs
    induction gs with
    | nil =>
      intro _
      exact ⟨[], by simp [process_guardians], by simp⟩
    | cons g rest ih =>
      intro hall
      obtain ⟨evs, hevs, hcover⟩ := ih (fun g' hg' => hall g' (by simp [hg']))
      by_cases h1 : g.shard_accepted_at.isSome = true
      · refine ⟨evs, ?_, ?_⟩
        · rw [process_guardians_cons, if_pos h1]
          exact hevs
        · intro g' hg' hacc hrem htok
          rcases List.mem_cons.mp hg' with rfl | hmem
          · simp [hacc] at h1
          · exact hcover g' hmem hacc hrem htok
      · by_cases h2 : determine_reminder_number (guardian_hours parse now la g) = 0
        · refine ⟨evs, ?_, ?_⟩
          · rw [process_guardians_cons, if_neg h1, if_pos h2]
            exact hevs
          · intro g' hg' hacc hrem htok
            rcases List.mem_cons.mp hg' with rfl | hmem
            · exact absurd h2 hrem
            · exact hcover g' hmem hacc hrem htok
        · obtain ⟨ts, hts⟩ := hall g (by simp)
          by_cases h3 : ts.isEmpty = true
          · refine ⟨evs, ?_, ?_⟩
            · rw [process_guardians_cons, if_neg h1, if_neg h2, hts]
              simp only [h3, if_true]
              exact hevs
            · intro g' hg' hacc hrem htok
              rcases List.mem_cons.mp hg' with rfl | hmem
              · exact absurd (by simpa [List.isEmpty_iff] using h3) (htok ts hts)
              · exact hcover g' hmem hacc hrem htok
          · refine ⟨(match send ts bn ow bid
                (determine_reminder_number (guardian_hours parse now la g)) with
                | .ok _ => SweepEvent.reminder_sent g.id
                    (determine_reminder_number (guardian_hours parse now la g))
                | .error _ => SweepEvent.send_failed g.id
                    (determine_reminder_number (guardian_hours parse now la g))) :: evs,
              ?_, ?_⟩
            · rw [process_guardians_cons, if_neg h1, if_neg h2, hts]
              simp only [h3, Bool.false_eq_true, if_false]
              rw [hevs]
              rfl
            · intro g' hg' hacc hrem htok
              rcases List.mem_cons.mp hg' with rfl | hmem
              · refine ⟨_, List.mem_cons_self _ _, ?_⟩
                rcases send ts bn ow bid
                    (determine_reminder_number (guardian_hours parse now la g')) with _ | _ <;>
                  rfl
              · obtain ⟨ev, hev, hgid⟩ := hcover g' hmem hacc hrem htok
                exact ⟨ev, by simp [hev], hgid⟩
  · intro parse gets send now pre b post
    unfold sweep_handler
    simp

/-- Concrete run of the C8 amended theorem: with an always-succeeding token
store, processing the two guardians of `exSweepBox` completes with a trace
covering both. -/
theorem sweep_amended_witness :
    ∃ evs, process_guardians exParse exGetTokensOk exSendOk "Vault" "Owner One" "box1"
      90000 0 [bareGuardian "g1" "i1", bareGuardian "g2" "i2"] = .ok evs := by
  obtain ⟨evs, hevs, -⟩ := sweep_amended.2.1 exParse exGetTokensOk exSendOk
    "Vault" "Owner One" "box1" 90000 0 [bareGuardian "g1" "i1", bareGuardian "g2" "i2"]
    (by intro g hg; exact ⟨[exTok g.id], rfl⟩)
  exact ⟨evs, hevs⟩
